import Mathlib

/-!
Verification of the TODO Flask application (src/main.py, src/verification.py).

The data model and the request handlers are shallowly embedded: the two
SQLAlchemy tables become lists of records inside a `Store`, and each Flask
route handler becomes a pure function from a store (plus the request data)
to a response together with the new store.  Python strings are Lean
`String`s; SQL primary-key lookups become lookups by the `id` field.
-/

namespace TodoApp

/-! ## Credential validator (src/verification.py) -/

/-- ASCII letter, the regex class [A-Za-z]. -/
def isAsciiLetter (c : Char) : Bool :=
  (decide ('A' ≤ c) && decide (c ≤ 'Z')) || (decide ('a' ≤ c) && decide (c ≤ 'z'))

/-- The regex character class [A-Za-z0-9_.] of `verify_username`. -/
def usernameClassChar (c : Char) : Bool :=
  isAsciiLetter c || c.isDigit || c == '_' || c == '.'

/-- Python `re.match` of the pattern ^[A-Za-z][A-Za-z0-9_.]*$ against the
full character list.  In Python `$` matches at the end of the string or
just before a newline at the end of the string, so the match succeeds when
all characters after the first are in the class, or when all but a single
final newline are. -/
def usernameRegexMatch : List Char → Bool
  | [] => false
  | c :: rest =>
    isAsciiLetter c &&
      (rest.all usernameClassChar ||
        (!rest.isEmpty && rest.getLast? == some '\n' && rest.dropLast.all usernameClassChar))

/-- `verify_username` from src/verification.py: length in [3,20] and the
regex match above. -/
def verify_username (u : String) : Bool :=
  if !(3 ≤ u.length && u.length ≤ 20) then false
  else if !(usernameRegexMatch u.data) then false
  else true

/-- The fixed punctuation class of `verify_password`:
the regex characters ! @ # $ % ^ & * ( ) , . ? " : open-brace close-brace | < > . -/
def isPasswordSymbol (c : Char) : Bool :=
  c == '!' || c == '@' || c == '#' || c == '$' || c == '%' || c == '^' ||
  c == '&' || c == '*' || c == '(' || c == ')' || c == ',' || c == '.' ||
  c == '?' || c == '"' || c == ':' || c == Char.ofNat 0x7b ||
  c == Char.ofNat 0x7d || c == '|' || c == '<' || c == '>'

/-- `verify_password` from src/verification.py: the five checks in their
source order, each an early `return False`.  The `\d` class is modelled on
its ASCII digits. -/
def verify_password (p : String) : Bool :=
  if p.length < 8 then false
  else if !(p.data.any (fun c => decide ('A' ≤ c) && decide (c ≤ 'Z'))) then false
  else if !(p.data.any (fun c => decide ('a' ≤ c) && decide (c ≤ 'z'))) then false
  else if !(p.data.any (fun c => c.isDigit)) then false
  else if !(p.data.any isPasswordSymbol) then false
  else true

/-! ## Data model (src/main.py, models User and Todo) -/

/-- A row of the users table. -/
structure User where
  id : Nat
  username : String
  password_hash : String
deriving Repr, DecidableEq

/-- A row of the todo table.  `date_created` is a day ordinal; `user_id`
is the foreign key to the owning user. -/
structure Todo where
  id : Nat
  title : String
  description : String
  date_created : Nat
  is_completed : Bool
  user_id : Nat
deriving Repr, DecidableEq

/-- The persisted state: the two logical tables. -/
structure Store where
  users : List User
  todos : List Todo
deriving Repr, DecidableEq

/-! ## Request handlers (src/main.py routes) -/

/-- The outcome flashed by the signup route. -/
inductive SignupResult where
  | duplicateUser
  | invalidUsername
  | invalidPassword
  | passwordMismatch
  | success
deriving Repr, DecidableEq

/-- The `signup` POST handler.  `hash` stands for
`bcrypt.generate_password_hash`, an opaque collaborator, and `nid` for the
primary key the database would assign.  The checks appear in source
order: duplicate lookup, username format, password format, confirmation
match; only the final branch writes to the store. -/
def signup (hash : String → String) (s : Store) (nid : Nat)
    (username password confirm_password : String) : SignupResult × Store :=
  if (s.users.find? (fun u => u.username == username)).isSome then
    (SignupResult.duplicateUser, s)
  else if !(verify_username username) then
    (SignupResult.invalidUsername, s)
  else if !(verify_password password) then
    (SignupResult.invalidPassword, s)
  else if password ≠ confirm_password then
    (SignupResult.passwordMismatch, s)
  else
    (SignupResult.success,
      { s with users := s.users ++ [User.mk nid username (hash password)] })

/-- Responses of the todo-submission handler. -/
inductive SubmitResult where
  | badRequest
  | serverError
  | redirect
deriving Repr, DecidableEq

/-- The `handle_submit` POST handler.  Python `not title or not desc`
is emptiness of the raw strings (no trimming).  The current user is
looked up by username as in the source; a failed lookup raises and is
rolled back by the except branch.  `nid` is the fresh primary key and
`today` the default creation date. -/
def handle_submit (s : Store) (nid today : Nat)
    (current_username title desc : String) : SubmitResult × Store :=
  if title.isEmpty || desc.isEmpty then
    (SubmitResult.badRequest, s)
  else
    match s.users.find? (fun u => u.username == current_username) with
    | none => (SubmitResult.serverError, s)
    | some u =>
      (SubmitResult.redirect,
        { s with todos := s.todos ++ [Todo.mk nid title desc today false u.id] })

/-- The `handle_complete` handler: `db.get_or_404(Todo, id)` looks the row
up by primary key alone — there is no owner filter in the source — then
sets `is_completed` and commits.  `none` is the 404 response. -/
def handle_complete (s : Store) (id : Nat) : Option Store :=
  if s.todos.any (fun t => t.id == id) then
    some { s with
      todos := s.todos.map (fun t =>
        if t.id == id then { t with is_completed := true } else t) }
  else none

/-- The `handle_delete` handler: primary-key lookup (no owner filter),
then the row is deleted.  `none` is the 404 response. -/
def handle_delete (s : Store) (id : Nat) : Option Store :=
  if s.todos.any (fun t => t.id == id) then
    some { s with todos := s.todos.filter (fun t => !(t.id == id)) }
  else none

/-- The `handle_delete_comp` handler, written in the source as a separate
route with the same body as `handle_delete`. -/
def handle_delete_comp (s : Store) (id : Nat) : Option Store :=
  if s.todos.any (fun t => t.id == id) then
    some { s with todos := s.todos.filter (fun t => !(t.id == id)) }
  else none

/-- The `handle_clear_completed` handler:
`db.delete(Todo).filter_by(is_completed=True)` — the statement filters on
the completion flag only, with no owner filter, so every completed todo of
every user is deleted. -/
def handle_clear_completed (s : Store) : Store :=
  { s with todos := s.todos.filter (fun t => !t.is_completed) }

/-! ## The operations exposed by the system, as one step type -/

/-- One mutating request, with the request data it carries. -/
inductive Op where
  | signupOp (hash : String → String) (nid : Nat) (un pw cpw : String)
  | submitOp (nid today : Nat) (un ti de : String)
  | completeOp (id : Nat)
  | deleteOp (id : Nat)
  | deleteCompOp (id : Nat)
  | clearCompletedOp

/-- Apply one request to the store; a 404 leaves the store unchanged. -/
def applyOp (s : Store) : Op → Store
  | Op.signupOp h nid un pw cpw => (signup h s nid un pw cpw).2
  | Op.submitOp nid today un ti de => (handle_submit s nid today un ti de).2
  | Op.completeOp id =>
    match handle_complete s id with
    | some t => t
    | none => s
  | Op.deleteOp id =>
    match handle_delete s id with
    | some t => t
    | none => s
  | Op.deleteCompOp id =>
    match handle_delete_comp s id with
    | some t => t
    | none => s
  | Op.clearCompletedOp => handle_clear_completed s

/-- The primary key a submission carries is fresh, as the database's
autoincrement guarantees. -/
def opFresh (s : Store) : Op → Prop
  | Op.submitOp nid _ _ _ _ => ∀ t ∈ s.todos, t.id ≠ nid
  | _ => True

/-! ## Concrete stores used by counterexamples and witnesses -/

/-- A user of the demo store. -/
def alice : User := User.mk 1 "alice" "h1"

/-- A second, logged-in user of the demo store. -/
def bob : User := User.mk 2 "bob" "h2"

/-- A task owned by alice, still active. -/
def aliceTask : Todo := Todo.mk 1 "buy milk" "two percent" 0 false 1

/-- A task owned by alice, already completed. -/
def aliceDone : Todo := Todo.mk 3 "pay rent" "march" 0 true 1

/-- A task owned by bob, still active. -/
def bobTask : Todo := Todo.mk 2 "call mom" "sunday" 0 false 2

/-- Two users; alice owns an active task. -/
def demoStore : Store := Store.mk [alice, bob] [aliceTask]

/-- Two users; alice owns a completed task and bob an active one. -/
def mixedStore : Store := Store.mk [alice, bob] [aliceDone, bobTask]

/-! ## The spec's own characterizations, for comparison with the code -/

/-- The spec's characterization of a valid password, stated directly as
one conjunction: length at least 8 and at least one character of each of
the four required kinds. -/
def specValidPassword (p : String) : Bool :=
  decide (8 ≤ p.length) &&
  p.data.any (fun c => decide ('A' ≤ c) && decide (c ≤ 'Z')) &&
  p.data.any (fun c => decide ('a' ≤ c) && decide (c ≤ 'z')) &&
  p.data.any (fun c => c.isDigit) &&
  p.data.any isPasswordSymbol

/-! ## Theorems -/

/-- Claim C1 (code bug): the complete and delete handlers look a task up
by id alone, with no owner filter, so a logged-in user (bob, id 2) can
complete and delete a task owned by another user (alice, id 1).  The
claim requires both calls to fail NotFound and change nothing; instead
both succeed and mutate alice's task. -/
theorem c1_ownership_not_checked :
    handle_complete demoStore 1 =
      some (Store.mk [alice, bob] [Todo.mk 1 "buy milk" "two percent" 0 true 1])
  ∧ handle_delete demoStore 1 = some (Store.mk [alice, bob] []) := by
  decide

/-- Claim C2 (code bug): `handle_clear_completed` deletes every completed
todo in the table, with no owner filter.  When bob (who has zero
completed tasks) clears completed, alice's completed task `aliceDone` is
deleted, though the claim requires tasks of other users to be unchanged. -/
theorem c2_clear_completed_crosses_owners :
    handle_clear_completed mixedStore = Store.mk [alice, bob] [bobTask] := by
  decide

/-- Claim C3 (code bug): Python's `$` anchor also matches just before a
trailing newline, so `verify_username` accepts the three-character string
"ab\n" although its last character is not a letter, digit, underscore or
dot, contradicting the claimed iff (and the function's own docstring). -/
theorem c3_trailing_newline_accepted :
    verify_username "ab\n" = true ∧ "ab\n".data.all usernameClassChar = false := by
  decide

/-- Claim C4: `verify_password` returns true exactly when the password
has length at least 8 and contains an uppercase letter, a lowercase
letter, a digit, and a symbol from the implementation's punctuation set. -/
theorem c4_verify_password_iff (p : String) :
    verify_password p = specValidPassword p := by
  unfold verify_password specValidPassword
  split_ifs with h1 h2 h3 h4 h5 <;> simp_all

/-- Claim C10: the `/delete/{id}` and `/delete_comp/{id}` handlers are
behaviorally identical, and whenever a task with the given id exists both
remove it regardless of its `is_completed` value. -/
theorem c10_delete_routes_equal (s : Store) (id : Nat) :
    handle_delete s id = handle_delete_comp s id
  ∧ (s.todos.any (fun t => t.id == id) = true →
      handle_delete s id =
        some { s with todos := s.todos.filter (fun t => !(t.id == id)) }) := by
  refine ⟨rfl, fun h => ?_⟩
  simp [handle_delete, h]

/-- Witness for C10 at a concrete store and id. -/
theorem c10_delete_routes_equal_witness :
    handle_delete demoStore 1 =
      some { demoStore with todos := demoStore.todos.filter (fun t => !(t.id == 1)) } :=
  (c10_delete_routes_equal demoStore 1).2 (by decide)

/-- Claim C5: the signup checks run in the fixed order duplicate lookup,
username format, password format, confirmation match; the first failure
determines the result, and every failing call leaves the store
unchanged. -/
theorem c5_register_priority (hash : String → String) (s : Store) (nid : Nat)
    (un pw cpw : String) :
    ((s.users.find? (fun u => u.username == un)).isSome = true →
      signup hash s nid un pw cpw = (SignupResult.duplicateUser, s))
  ∧ ((s.users.find? (fun u => u.username == un)).isSome = false →
      verify_username un = false →
      signup hash s nid un pw cpw = (SignupResult.invalidUsername, s))
  ∧ ((s.users.find? (fun u => u.username == un)).isSome = false →
      verify_username un = true → verify_password pw = false →
      signup hash s nid un pw cpw = (SignupResult.invalidPassword, s))
  ∧ ((s.users.find? (fun u => u.username == un)).isSome = false →
      verify_username un = true → verify_password pw = true → pw ≠ cpw →
      signup hash s nid un pw cpw = (SignupResult.passwordMismatch, s))
  ∧ ((signup hash s nid un pw cpw).1 ≠ SignupResult.success →
      (signup hash s nid un pw cpw).2 = s) := by
  refine ⟨?_, ?_, ?_, ?_, ?_⟩
  · intro h1; simp [signup, h1]
  · intro h1 h2; simp [signup, h1, h2]
  · intro h1 h2 h3; simp [signup, h1, h2, h3]
  · intro h1 h2 h3 h4; simp [signup, h1, h2, h3, h4]
  · intro h1
    unfold signup at h1 ⊢
    split_ifs at h1 ⊢ <;> simp_all

/-- Witness for C5: registering the already-present username "alice"
fails with DuplicateUser and leaves the store unchanged. -/
theorem c5_register_priority_witness :
    signup (fun x => x) demoStore 3 "alice" "Pw1!aaaa" "Pw1!aaaa" =
      (SignupResult.duplicateUser, demoStore) :=
  (c5_register_priority (fun x => x) demoStore 3 "alice" "Pw1!aaaa" "Pw1!aaaa").1
    (by decide)

/-- Claim C6 counterexample: the handler tests raw emptiness, not
emptiness after trimming.  The title " " is empty after trimming, so the
claim requires a ValidationError and no insert; the code instead inserts
the task and redirects. -/
theorem c6_whitespace_title_inserted :
    " ".data.all (fun c => c.isWhitespace) = true
  ∧ " " ≠ ""
  ∧ handle_submit demoStore 2 0 "alice" " " "some desc" =
      (SubmitResult.redirect,
        Store.mk [alice, bob] [aliceTask, Todo.mk 2 " " "some desc" 0 false 1]) := by
  refine ⟨by decide, by decide, by decide⟩

/-- Claim C6 as amended: with the current user present in the store, the
submission fails with a 400 and inserts nothing when the raw title or
description is the empty string; otherwise it appends exactly one new
task owned by that user with is_completed false. -/
theorem c6_create_task (s : Store) (nid today : Nat) (un ti de : String) (u : User)
    (hu : s.users.find? (fun x => x.username == un) = some u) :
    ((ti.isEmpty || de.isEmpty) = true →
      handle_submit s nid today un ti de = (SubmitResult.badRequest, s))
  ∧ ((ti.isEmpty || de.isEmpty) = false →
      handle_submit s nid today un ti de =
        (SubmitResult.redirect,
          { s with todos := s.todos ++ [Todo.mk nid ti de today false u.id] })) := by
  constructor
  · intro h; simp [handle_submit, h]
  · intro h; simp [handle_submit, h, hu]

/-- Witness for C6: alice submits a non-empty task, which is appended
with her id as owner and is_completed false. -/
theorem c6_create_task_witness :
    handle_submit demoStore 2 0 "alice" "task" "desc" =
      (SubmitResult.redirect,
        { demoStore with todos := demoStore.todos ++ [Todo.mk 2 "task" "desc" 0 false 1] }) :=
  (c6_create_task demoStore 2 0 "alice" "task" "desc" alice (by decide)).2 (by decide)

/-- Claim C9: completing is idempotent — if a complete call succeeded and
produced store s2, running the same complete call on s2 succeeds again
and returns s2 unchanged. -/
theorem c9_complete_idempotent (s : Store) (id : Nat) (s2 : Store)
    (h : handle_complete s id = some s2) :
    handle_complete s2 id = some s2 := by
  unfold handle_complete at h ⊢
  by_cases hany : s.todos.any (fun t => t.id == id) = true
  · simp only [hany, if_pos] at h
    have h2 := Option.some.inj h
    subst h2
    have hid : ∀ t : Todo,
        ((fun t => if t.id == id then { t with is_completed := true } else t) t).id
          = t.id := by
      intro t
      by_cases ht : t.id == id <;> simp [ht]
    have hany2 :
        (s.todos.map
            (fun t => if t.id == id then { t with is_completed := true } else t)).any
          (fun t => t.id == id) = true := by
      rw [List.any_map]
      have : ((fun (t : Todo) => t.id == id) ∘
          (fun t => if t.id == id then { t with is_completed := true } else t))
          = fun t => t.id == id := by
        funext t
        by_cases ht : t.id = id
        · simp [Function.comp, ht]
        · simp [Function.comp, ht]
      rw [this]
      exact hany
    simp only [hany2, if_pos]
    congr 1
    simp only [Store.mk.injEq, and_true, true_and]
    rw [List.map_map]
    apply List.map_congr_left
    intro t _
    by_cases ht : t.id = id
    · simp [Function.comp, ht]
    · simp [Function.comp, ht]
  · simp [hany] at h

/-- Witness for C9: completing alice's task once yields a store on which
the same call is a fixed point. -/
theorem c9_complete_idempotent_witness :
    handle_complete (Store.mk [alice, bob] [Todo.mk 1 "buy milk" "two percent" 0 true 1]) 1 =
      some (Store.mk [alice, bob] [Todo.mk 1 "buy milk" "two percent" 0 true 1]) :=
  c9_complete_idempotent demoStore 1
    (Store.mk [alice, bob] [Todo.mk 1 "buy milk" "two percent" 0 true 1]) (by decide)

/-- When the ids of a todo list are distinct, two members with the same
id are the same row. -/
theorem todo_eq_of_id_eq {l : List Todo} (hnd : (l.map (fun t => t.id)).Nodup)
    {t u : Todo} (ht : t ∈ l) (hu : u ∈ l) (hid : u.id = t.id) : u = t :=
  List.inj_on_of_nodup_map hnd hu ht hid

/-- Signup never touches the todos table. -/
theorem signup_store_todos (hashf : String → String) (s : Store) (nid : Nat)
    (un pw cpw : String) : ((signup hashf s nid un pw cpw).2).todos = s.todos := by
  unfold signup
  split_ifs <;> rfl

/-- Todo submission never touches the users table. -/
theorem submit_store_users (s : Store) (nid today : Nat) (un ti de : String) :
    ((handle_submit s nid today un ti de).2).users = s.users := by
  unfold handle_submit
  split
  · rfl
  · split <;> rfl

/-- Claim C7: a single exposed operation never turns a task's
is_completed flag from true back to false — a completed task that is
still present after the operation is still completed.  The hypotheses say
the stored ids are distinct (primary keys) and a submission carries a
fresh id (autoincrement). -/
theorem c7_complete_flag_monotone (s : Store) (op : Op)
    (hnodup : (s.todos.map (fun t => t.id)).Nodup)
    (hfresh : opFresh s op)
    (t : Todo) (ht : t ∈ s.todos) (hc : t.is_completed = true)
    (u : Todo) (hu : u ∈ (applyOp s op).todos) (hid : u.id = t.id) :
    u.is_completed = true := by
  cases op with
  | signupOp hashf nid un pw cpw =>
    simp only [applyOp] at hu
    rw [signup_store_todos] at hu
    rw [todo_eq_of_id_eq hnodup ht hu hid]
    exact hc
  | submitOp nid today un ti de =>
    have hf : ∀ x ∈ s.todos, x.id ≠ nid := hfresh
    simp only [applyOp] at hu
    unfold handle_submit at hu
    split at hu
    · rw [todo_eq_of_id_eq hnodup ht hu hid]
      exact hc
    · split at hu
      · rw [todo_eq_of_id_eq hnodup ht hu hid]
        exact hc
      · rcases List.mem_append.mp hu with hmem | hmem
        · rw [todo_eq_of_id_eq hnodup ht hmem hid]
          exact hc
        · rw [List.mem_singleton] at hmem
          subst hmem
          exact absurd hid.symm (hf t ht)
  | completeOp tid =>
    simp only [applyOp] at hu
    by_cases hany : s.todos.any (fun x => x.id == tid) = true
    · simp only [handle_complete, hany, if_true] at hu
      obtain ⟨v, hv, hvu⟩ := List.mem_map.mp hu
      by_cases hvid : v.id = tid
      · rw [← hvu]
        simp [hvid]
      · have huv : u = v := by rw [← hvu]; simp [hvid]
        rw [huv] at hid ⊢
        rw [todo_eq_of_id_eq hnodup ht hv hid]
        exact hc
    · simp only [handle_complete, hany, if_false, Bool.false_eq_true] at hu
      rw [todo_eq_of_id_eq hnodup ht hu hid]
      exact hc
  | deleteOp tid =>
    simp only [applyOp] at hu
    by_cases hany : s.todos.any (fun x => x.id == tid) = true
    · simp only [handle_delete, hany, if_true] at hu
      rw [todo_eq_of_id_eq hnodup ht (List.mem_filter.mp hu).1 hid]
      exact hc
    · simp only [handle_delete, hany, if_false, Bool.false_eq_true] at hu
      rw [todo_eq_of_id_eq hnodup ht hu hid]
      exact hc
  | deleteCompOp tid =>
    simp only [applyOp] at hu
    by_cases hany : s.todos.any (fun x => x.id == tid) = true
    · simp only [handle_delete_comp, hany, if_true] at hu
      rw [todo_eq_of_id_eq hnodup ht (List.mem_filter.mp hu).1 hid]
      exact hc
    · simp only [handle_delete_comp, hany, if_false, Bool.false_eq_true] at hu
      rw [todo_eq_of_id_eq hnodup ht hu hid]
      exact hc
  | clearCompletedOp =>
    simp only [applyOp, handle_clear_completed] at hu
    rw [todo_eq_of_id_eq hnodup ht (List.mem_filter.mp hu).1 hid]
    exact hc

/-- Witness for C7: completing an already completed task leaves it
completed. -/
theorem c7_complete_flag_monotone_witness :
    (Todo.mk 3 "pay rent" "march" 0 true 1).is_completed = true :=
  c7_complete_flag_monotone (Store.mk [alice] [aliceDone]) (Op.completeOp 3)
    (by decide) trivial aliceDone (by decide) rfl
    (Todo.mk 3 "pay rent" "march" 0 true 1) (by decide) rfl

/-- In a user list whose usernames are distinct, the number of rows with
a given present username is exactly one. -/
theorem countP_username_eq_one (l : List User) (n : String)
    (hnd : (l.map (fun u => u.username)).Nodup)
    (hex : ∃ u ∈ l, u.username = n) :
    l.countP (fun u => u.username == n) = 1 := by
  induction l with
  | nil => simp at hex
  | cons a tl ih =>
    rw [List.map_cons, List.nodup_cons] at hnd
    obtain ⟨hna, hnd2⟩ := hnd
    obtain ⟨u, hu, hun⟩ := hex
    rcases List.mem_cons.mp hu with h | h
    · subst h
      rw [List.countP_cons]
      have h0 : tl.countP (fun v => v.username == n) = 0 := by
        rw [List.countP_eq_zero]
        intro v hv
        simp only [beq_iff_eq]
        intro hvn
        exact hna (by rw [hun, ← hvn]; exact List.mem_map_of_mem _ hv)
      simp [h0, hun]
    · have h1 : tl.countP (fun v => v.username == n) = 1 := ih hnd2 ⟨u, h, hun⟩
      rw [List.countP_cons]
      have ha : (a.username == n) = false := by
        simp only [beq_eq_false_iff_ne, ne_eq]
        intro han
        refine hna ?_
        rw [← hun] at han
        rw [han]
        exact List.mem_map_of_mem _ h
      simp [h1, ha]

/-- Claim C8: registering an already-present username fails with
DuplicateUser, leaves the store unchanged, and the store holds exactly
one user with that username; distinctness of usernames is preserved by
every exposed operation. -/
theorem c8_username_unique (hashf : String → String) (s : Store) (nid : Nat)
    (n pw cpw : String)
    (hnodup : (s.users.map (fun u => u.username)).Nodup) :
    ((∃ u ∈ s.users, u.username = n) →
      signup hashf s nid n pw cpw = (SignupResult.duplicateUser, s)
      ∧ s.users.countP (fun u => u.username == n) = 1)
  ∧ (∀ op : Op, ((applyOp s op).users.map (fun u => u.username)).Nodup) := by
  constructor
  · intro hex
    have hsome : (s.users.find? (fun u => u.username == n)).isSome = true := by
      rw [List.find?_isSome]
      obtain ⟨u, hu, hun⟩ := hex
      exact ⟨u, hu, by simp [hun]⟩
    exact ⟨by simp [signup, hsome], countP_username_eq_one s.users n hnodup hex⟩
  · intro op
    cases op with
    | signupOp h2 nid2 un2 pw2 cpw2 =>
      show (((signup h2 s nid2 un2 pw2 cpw2).2).users.map (fun u => u.username)).Nodup
      unfold signup
      split_ifs with hb1 hb2 hb3 hb4
      · exact hnodup
      · exact hnodup
      · exact hnodup
      · exact hnodup
      · show (((s.users ++ [User.mk nid2 un2 (h2 pw2)]).map (fun u => u.username)).Nodup)
        have hno : ∀ u ∈ s.users, u.username ≠ un2 := by
          intro u hu heq
          exact hb1 (List.find?_isSome.mpr ⟨u, hu, by simp [heq]⟩)
        rw [List.map_append, List.nodup_append]
        refine ⟨hnodup, List.nodup_singleton _, ?_⟩
        intro a ha hmem
        rw [List.map_singleton, List.mem_singleton] at hmem
        obtain ⟨u, hu, hfa⟩ := List.mem_map.mp ha
        rw [← hfa] at hmem
        exact hno u hu hmem
    | submitOp nid2 today2 un2 ti2 de2 =>
      show (((handle_submit s nid2 today2 un2 ti2 de2).2).users.map
        (fun u => u.username)).Nodup
      rw [submit_store_users]
      exact hnodup
    | completeOp tid =>
      simp only [applyOp]
      unfold handle_complete
      split_ifs <;> exact hnodup
    | deleteOp tid =>
      simp only [applyOp]
      unfold handle_delete
      split_ifs <;> exact hnodup
    | deleteCompOp tid =>
      simp only [applyOp]
      unfold handle_delete_comp
      split_ifs <;> exact hnodup
    | clearCompletedOp => exact hnodup

/-- Witness for C8: a second registration of "alice" on the demo store
fails with DuplicateUser and the store holds exactly one "alice". -/
theorem c8_username_unique_witness :
    signup (fun x => x) demoStore 3 "alice" "pw" "pw" =
      (SignupResult.duplicateUser, demoStore)
  ∧ demoStore.users.countP (fun u => u.username == "alice") = 1 :=
  (c8_username_unique (fun x => x) demoStore 3 "alice" "pw" "pw" (by decide)).1
    ⟨alice, by decide, rfl⟩

end TodoApp
